import Mathlib

/-!
Verification of the CVParser repository's concurrent batch-processing
pipeline specification against a shallow embedding of the two source
files, src/cv_downloader.py and src/cv_parser.py.

Texts (URLs, extracted PDF text, LLM responses) are modelled as
`List Char`, matching Python's view of `str` as a sequence of code
points. External collaborators (the HTTP layer, pdfplumber, json.loads,
the two LLM backends) are passed in as explicit function arguments whose
failure modes are `Except` values, so that every theorem quantifies over
all possible collaborator behaviours.
-/

/-- Error values standing for the Python exceptions that the external
collaborators (pdfplumber, requests, the filesystem) can raise. The
particular constructor carries no meaning beyond being an exception. -/
inductive Err where
  | pdfError
  | netError
  | valueError
deriving DecidableEq

/-- Errors raised by the hosted (OpenAI) backend: `rateLimit` stands for
openai.RateLimitError, `otherError` for every other exception. -/
inductive ApiError where
  | rateLimit
  | otherError
deriving DecidableEq

/-- Terminal outcome of one unit of work, the spec's WorkResult payload. -/
inductive Outcome where
  | success
  | failure
deriving DecidableEq

/-- Python's substring test `pat in s` (str.__contains__): true iff `pat`
occurs contiguously inside `s`. An empty pattern is contained in every
string, as in Python. -/
def hasSubstr (pat : List Char) : List Char → Bool
  | [] => pat.isEmpty
  | c :: rest => pat.isPrefixOf (c :: rest) || hasSubstr pat rest

/-- Python's `s.replace(pat, rep)`: replaces every non-overlapping
occurrence of `pat` in `s`, scanning left to right. Only used with the
non-empty patterns appearing in the source. Fuel-based structural
recursion (fuel = length of the string) so the kernel can evaluate it. -/
def replaceAllFuel (pat rep : List Char) : Nat → List Char → List Char
  | 0, s => s
  | _ + 1, [] => []
  | fuel + 1, c :: rest =>
    if pat.isPrefixOf (c :: rest) then
      rep ++ replaceAllFuel pat rep fuel (rest.drop (pat.length - 1))
    else
      c :: replaceAllFuel pat rep fuel rest

/-- Python's `s.replace(pat, rep)` over `List Char`. -/
def replaceAll (pat rep s : List Char) : List Char :=
  replaceAllFuel pat rep s.length s

/-- remainder of `s` after the first occurrence of `pat` in `s`;
returns `[]` when `pat` does not occur. -/
def afterMarker (pat : List Char) : List Char → List Char
  | [] => []
  | c :: rest =>
    if pat.isPrefixOf (c :: rest) then (c :: rest).drop pat.length
    else afterMarker pat rest

/-- Models `urllib.parse.urlparse(url).path` for the URL shapes this
program meets: an optional `scheme://netloc` part, then the path, with
query cut at the first `?` and fragment cut at the first `#`. URLs with
a scheme but no `//` (e.g. mailto:) are outside the modelled subset. -/
def urlparse_path (url : List Char) : List Char :=
  let noFrag := url.takeWhile (fun c => c ≠ '#')
  let rest :=
    if hasSubstr (("://").data) noFrag then
      -- skip "scheme://" and then the netloc, which ends at the first
      -- '/' or '?' after it; the path begins at that character
      (afterMarker (("://").data) noFrag).dropWhile (fun c => c ≠ '/' && c ≠ '?')
    else noFrag
  rest.takeWhile (fun c => c ≠ '?')

/-- src/cv_downloader.py, is_pdf_url (lines 48-50): the path component
of the URL, lower-cased, ends with ".pdf". -/
def is_pdf_url (url : List Char) : Bool :=
  ((".pdf").data).isSuffixOf ((urlparse_path url).map Char.toLower)

/-- src/cv_downloader.py, modify_dropbox_link (lines 68-77): if the link
mentions dropbox.com, either rewrite every "dl=0" to "dl=1" or append
"&dl=1"; any other link is returned unchanged. -/
def modify_dropbox_link (link : List Char) : List Char :=
  if hasSubstr (("dropbox.com").data) link then
    if hasSubstr (("dl=0").data) link then
      replaceAll (("dl=0").data) (("dl=1").data) link
    else
      link ++ ("&dl=1").data
  else
    link

/-- src/cv_downloader.py, download_pdf (lines 53-65): performs the HTTP
GET (the `net` collaborator) and converts any exception into `false`
(lines 63-65). The second component records the network requests made,
so that "no network call" is expressible: download_pdf always issues
exactly one request for its URL. -/
def download_pdf (net : List Char → Except Err Unit) (url : List Char)
    (row_num : Nat) : Bool × List (List Char) :=
  (match net url with
   | Except.ok _ => true
   | Except.error _ => false,
   [url])

/-- src/cv_downloader.py, process_link (lines 80-90): normalise the
link, pre-filter on the path suffix (the source tests the negation
first and returns False without downloading), otherwise download. The
second component again records the network requests performed. -/
def process_link (download : List Char → Nat → Bool × List (List Char))
    (link : List Char) (row_num : Nat) : Bool × List (List Char) :=
  let pdf_url := modify_dropbox_link link
  if is_pdf_url pdf_url then download pdf_url row_num
  else (false, [])

/-- src/cv_downloader.py, lines 100-105: how the executor loop turns one
future's result into a terminal outcome: True is a success, False a
logged failure (line 103), and a raised exception is caught and logged
(lines 104-105), i.e. converted into a failure for that row only. -/
def outcomeOfResult {ε : Type} : Except ε Bool → Outcome
  | Except.ok true => Outcome.success
  | Except.ok false => Outcome.failure
  | Except.error _ => Outcome.failure

/-- src/cv_downloader.py, lines 94-105: the bounded executor submits
process_link for every (link, row) pair and drains the futures,
producing one terminal outcome per submitted item, tagged with the
item's row identity. Completion order is abstracted as submission
order; the claims are about the multiset of (identity, outcome) pairs,
not about the nondeterministic completion stream. -/
def downloaderLoop {ε : Type} (proc : List Char → Nat → Except ε Bool)
    (items : List (List Char × Nat)) : List (Nat × Outcome) :=
  items.map (fun it => (it.2, outcomeOfResult (proc it.1 it.2)))

/-- src/cv_downloader.py, whole-run exit behaviour: reading/selecting
from the Excel input (lines 30-45) aborts with exit(1) before any unit
work when it fails; otherwise every unit runs and the zip stage
(lines 108-117) catches its own errors, so the process ends with
status 0 regardless of per-unit failures. Returns (exit code, results). -/
def downloaderRun {ε : Type} (enum : Except Err (List (List Char × Nat)))
    (proc : List Char → Nat → Except ε Bool) : Nat × List (Nat × Outcome) :=
  match enum with
  | Except.error _ => (1, [])
  | Except.ok items => (0, downloaderLoop proc items)

/-- Index of the first match of the regex `re.compile(r'education',
re.IGNORECASE)` in the text (src/cv_parser.py lines 63-64): the least
position where the next nine characters, lower-cased, read
"education". ASCII case folding, which covers every letter of the
anchor. -/
def findEducation : List Char → Option Nat
  | [] => none
  | c :: rest =>
    if ((c :: rest).take 9).map Char.toLower = ("education").data then some 0
    else (findEducation rest).map (fun i => i + 1)

/-- src/cv_parser.py, extract_education_context (lines 51-74) with the
source's window_size passed explicitly (every call site uses the
default 60). Only the "ollama" branch searches for the anchor; any
other api_choice (the source's else branch, reached for "openai")
returns the fixed prefix text[:window_size * 6 * 20]. -/
def extract_education_context (text : List Char) (api_choice : String)
    (window_size : Nat) : List Char :=
  if api_choice = "ollama" then
    match findEducation text with
    | some i =>
      -- end = min(len(text), match.end() + window_size * 6);
      -- return text[match.start():end]; match.end() = i + 9
      (text.drop i).take (min text.length (i + 9 + window_size * 6) - i)
    | none => text.take (window_size * 6 * 3)
  else
    text.take (window_size * 6 * 20)

/-- the window the spec describes for an anchored text: from the first
anchor occurrence `i` to 360 characters past the match end, truncated
at the end of the text (window_size = 60, as at every call site). -/
def anchorWindowOllama (t : List Char) (i : Nat) : List Char :=
  (t.drop i).take (min t.length (i + 9 + 360) - i)

/-- true exactly for the rate-limit error, the predicate the backoff
decorator retries on (src/cv_parser.py line 122). -/
def isRateLimit : ApiError → Bool
  | ApiError.rateLimit => true
  | ApiError.otherError => false

/-- Models the `backoff.on_exception(backoff.constant, E, max_tries,
interval)` decorator driving attempt-indexed calls: an exception
matching `pred` with retries remaining waits `interval` and retries;
any other exception, or exhausted retries, propagates. Returns the
final result, the number of attempts made, and the list of waits
performed (in seconds). `remaining` is the number of retries still
allowed, so max_tries = remaining + 1. -/
def backoffRun {α : Type} (pred : ApiError → Bool) (interval : Nat)
    (call : Nat → Except ApiError α) (attempt : Nat) :
    Nat → Except ApiError α × Nat × List Nat
  | 0 => (call attempt, 1, [])
  | n + 1 =>
    match call attempt with
    | Except.ok v => (Except.ok v, 1, [])
    | Except.error e =>
      if pred e then
        match backoffRun pred interval call (attempt + 1) n with
        | (res, k, ws) => (res, k + 1, interval :: ws)
      else (Except.error e, 1, [])

/-- src/cv_parser.py, completions_with_backoff (lines 122-124): the
hosted-API call wrapped in backoff.constant with
openai.RateLimitError, max_tries=2, interval=30. -/
def completions_with_backoff {α : Type} (call : Nat → Except ApiError α) :
    Except ApiError α × Nat × List Nat :=
  backoffRun isRateLimit 30 call 0 1

/-- Minimal JSON value model for what json.loads can hand back to this
program: null, strings, objects (assoc lists with the unique keys a
JSON object has), or anything else. -/
inductive Json where
  | null
  | str (s : List Char)
  | obj (fields : List (List Char × Json))
  | other

/-- Python dict truthiness for the parsed values this program checks
with `if education_history:`. -/
def jsonTruthy : Json → Bool
  | Json.null => false
  | Json.str s => !s.isEmpty
  | Json.obj fields => !fields.isEmpty
  | Json.other => true

/-- Python `d.get(k, None)` on a JSON object: the value at the first
matching key, else None. -/
def jget (fields : List (List Char × Json)) (k : List Char) : Option Json :=
  (fields.find? (fun kv => kv.1 == k)).map (fun kv => kv.2)

/-- Python `d[k] = v` on an assoc-list model of a dict with unique keys. -/
def setKey (fields : List (List Char × Json)) (k : List Char) (v : Json) :
    List (List Char × Json) :=
  fields.map (fun kv => if kv.1 == k then (kv.1, v) else kv)

/-- one pass of src/cv_parser.py lines 108-110: if the value at `k` is
the string "null", overwrite it with None. -/
def clearNull1 (k : List Char) (fields : List (List Char × Json)) :
    List (List Char × Json) :=
  match jget fields k with
  | some (Json.str s) =>
    if s = ("null").data then setKey fields k Json.null else fields
  | _ => fields

/-- src/cv_parser.py lines 108-110: the loop over the three degree keys. -/
def clearNulls (fields : List (List Char × Json)) : List (List Char × Json) :=
  clearNull1 (("phd").data)
    (clearNull1 (("masters").data) (clearNull1 (("bachelors").data) fields))

/-- Python str.strip() over List Char. -/
def pstrip (s : List Char) : List Char :=
  ((s.dropWhile Char.isWhitespace).reverse.dropWhile Char.isWhitespace).reverse

/-- src/cv_parser.py, extract_education_history_ollama (lines 77-120).
`post` is the requests.post collaborator given the context text (the
prompt template around it is fixed and abstracted); on success it
yields the generated_text pulled from the response (line 103). `parse`
is json.loads, with `none` for JSONDecodeError. Every failure path -
transport error (lines 117-118), undecodable JSON or a non-object
value (lines 112-115) - is caught inside the function and becomes
None; the "null"-string degree fields of an object are cleared to
None (lines 107-111). -/
def extract_education_history_ollama
    (post : List Char → Except Err (List Char))
    (parse : List Char → Option Json) (text : List Char) : Option Json :=
  match post text with
  | Except.error _ => none
  | Except.ok generated =>
    match parse (pstrip generated) with
    | some (Json.obj fields) => some (Json.obj (clearNulls fields))
    | some _ => none
    | none => none

/-- src/cv_parser.py, extract_education_history_openai (lines 127-191).
`call` is the attempt-indexed hosted-API collaborator for this context
text, threaded through completions_with_backoff (line 146); `parse` is
json.loads (line 181, no strip here). Every failure path - an API
error surviving the backoff (lines 188-189), undecodable JSON or a
non-object value (lines 180-187) - is caught inside the function and
becomes None. -/
def extract_education_history_openai
    (call : List Char → Nat → Except ApiError (List Char))
    (parse : List Char → Option Json) (text : List Char) : Option Json :=
  match (completions_with_backoff (call text)).1 with
  | Except.error _ => none
  | Except.ok content =>
    match parse content with
    | some (Json.obj fields) => some (Json.obj fields)
    | some _ => none
    | none => none

/-- src/cv_parser.py, extract_education_history (lines 194-209):
dispatch on the api_choice string; an invalid choice is logged and
returns None. -/
def extract_education_history
    (post : List Char → Except Err (List Char))
    (call : List Char → Nat → Except ApiError (List Char))
    (parse : List Char → Option Json)
    (text : List Char) (api_choice : String) : Option Json :=
  if api_choice = "ollama" then extract_education_history_ollama post parse text
  else if api_choice = "openai" then
    extract_education_history_openai call parse text
  else none

/-- src/cv_parser.py, extract_text_from_pdf (lines 29-48). The
collaborator yields the pages' texts (each page.extract_text may be
None); any exception from pdfplumber is caught and becomes None
(lines 44-48). On success the non-None page texts are concatenated,
each followed by a newline (lines 38-42). -/
def extract_text_from_pdf
    (reader : Except Err (List (Option (List Char)))) : Option (List Char) :=
  match reader with
  | Except.error _ => none
  | Except.ok pages =>
    some (pages.foldl
      (fun acc p =>
        match p with
        | some t => acc ++ t ++ [Char.ofNat 10]
        | none => acc)
      [])

/-- Everything one PDF file brings to the extraction pipeline: its
integer identity (the filename stem, parsed at line 263), plus the
per-file behaviour of each external collaborator. -/
structure PdfEnv where
  identity : Int
  reader : Except Err (List (Option (List Char)))
  ollamaPost : List Char → Except Err (List Char)
  openaiCall : List Char → Nat → Except ApiError (List Char)
  parse : List Char → Option Json

/-- src/cv_parser.py, process_pdf_file (lines 212-238): extract the
text (None or empty text aborts with None, lines 221-224), take the
context window (an empty window aborts with None, lines 226-230), and
ask the chosen backend (a None history aborts with None, lines
232-235). -/
def process_pdf_file (env : PdfEnv) (api_choice : String) : Option Json :=
  match extract_text_from_pdf env.reader with
  | none => none
  | some text =>
    if text.isEmpty then none
    else
      let ctx := extract_education_context text api_choice 60
      if ctx.isEmpty then none
      else
        extract_education_history env.ollamaPost env.openaiCall env.parse
          ctx api_choice

/-- One row of the output table: the row identity and the named column
values (each a `d.get(key, None)` lookup result). -/
structure CsvRow where
  identity : Int
  fields : List (List Char × Option Json)

/-- field lookup on the history object, as in lines 279-287. -/
def historyGet (h : Json) (k : List Char) : Option Json :=
  match h with
  | Json.obj fields => jget fields k
  | _ => none

/-- src/cv_parser.py, worker (lines 273-289): run process_pdf_file; a
falsy history (None, or an empty dict) yields None; otherwise build
the row whose schema depends on the backend; an api string outside
the two known choices falls through to None. Every fallible
collaborator inside is already caught, so worker is total. -/
def worker (api : String) (env : PdfEnv) : Option CsvRow :=
  match process_pdf_file env api with
  | none => none
  | some history =>
    if jsonTruthy history then
      if api = "openai" then
        some { identity := env.identity,
               fields :=
                 [((("education_trajectory").data),
                   historyGet history (("education_trajectory").data)),
                  ((("career_trajectory").data),
                   historyGet history (("career_trajectory").data))] }
      else if api = "ollama" then
        some { identity := env.identity,
               fields :=
                 [((("Bachelors").data), historyGet history (("bachelors").data)),
                  ((("Masters").data), historyGet history (("masters").data)),
                  ((("PhD").data), historyGet history (("phd").data))] }
      else none
    else none

/-- src/cv_parser.py, lines 291-297: the executor loop drains the
futures; `future.result()` (line 295) is NOT wrapped in try/except, so
a worker that raised would abort the loop - hence the Except-valued
worker argument; truthy results are appended. Completion order is
abstracted as submission order (the output is sorted by identity
afterwards). -/
def parserLoop (w : PdfEnv → Except Err (Option CsvRow)) :
    List PdfEnv → Except Err (List CsvRow)
  | [] => Except.ok []
  | f :: rest =>
    match w f with
    | Except.error e => Except.error e
    | Except.ok r => (parserLoop w rest).map (fun rs => r.toList ++ rs)

/-- pandas df.sort_index (line 303) on the identity key. -/
def sortByIdentity (rows : List CsvRow) : List CsvRow :=
  rows.insertionSort (fun a b => a.identity ≤ b.identity)

/-- src/cv_parser.py, main (lines 242-309), modelled from the point
where the configuration is known. `input_dir_ok` is `input_dir.is_dir()`
(line 258): when false, main logs an error and returns plainly - the
process then exits with status 0. An empty directory returns early
(lines 264-266). Otherwise the executor loop runs every worker; with
zero collected rows, `pd.DataFrame([])` has no 'File Name' column and
line 300 raises an uncaught KeyError (modelled as exit code 1, no CSV);
otherwise the rows are sorted by identity and written (a to_csv failure
is caught at lines 305-309, leaving exit status 0). Returns
(exit code, CSV contents if one was written). -/
def parserRun (input_dir_ok : Bool) (files : List PdfEnv) (api : String) :
    Nat × Option (List CsvRow) :=
  if input_dir_ok then
    if files.isEmpty then (0, none)
    else
      match parserLoop (fun f => Except.ok (worker api f)) files with
      | Except.error _ => (1, none)
      | Except.ok rows =>
        if rows.isEmpty then (1, none)
        else (0, some (sortByIdentity rows))
  else (0, none)

/-- helper: taking after dropping yields a list no longer than the
original. -/
theorem take_drop_len_le (t : List Char) (i n : Nat) :
    ((t.drop i).take n).length ≤ t.length := by
  simp only [List.length_take, List.length_drop]
  exact le_trans (Nat.min_le_right _ _) (Nat.sub_le _ _)

/-- helper: the context window never exceeds the input text in length. -/
theorem extract_education_context_len_le (t : List Char) (c : String) :
    (extract_education_context t c 60).length ≤ t.length := by
  unfold extract_education_context
  split
  · split
    · exact take_drop_len_le t _ _
    · simp only [List.length_take]
      exact Nat.min_le_right _ _
  · simp only [List.length_take]
    exact Nat.min_le_right _ _

/-- C9: the link-normalization step is the identity on every URL that
does not contain the substring "dropbox.com": such a URL is returned
completely unchanged. -/
theorem C9_non_dropbox_identity (link : List Char)
    (h : hasSubstr (("dropbox.com").data) link = false) :
    modify_dropbox_link link = link := by
  simp [modify_dropbox_link, h]

theorem C9_non_dropbox_identity_witness :
    hasSubstr (("dropbox.com").data) (("https://example.com/cv.pdf").data) = false
    ∧ modify_dropbox_link (("https://example.com/cv.pdf").data)
      = ("https://example.com/cv.pdf").data :=
  ⟨by decide, C9_non_dropbox_identity _ (by decide)⟩

/-- C7: on the URL https://www.dropbox.com/s/abc/file.pdf?dl=0 the
link-normalization step returns the same URL with dl=0 replaced by
dl=1; and for every URL whose normalised form does not have a
".pdf"-suffixed path, the unit processor returns a failure outcome
having performed no network request. -/
theorem C7_dropbox_and_prefilter :
    modify_dropbox_link (("https://www.dropbox.com/s/abc/file.pdf?dl=0").data)
      = ("https://www.dropbox.com/s/abc/file.pdf?dl=1").data
    ∧ ∀ (net : List Char → Except Err Unit) (link : List Char) (n : Nat),
        is_pdf_url (modify_dropbox_link link) = false →
        process_link (download_pdf net) link n = (false, []) := by
  constructor
  · decide
  · intro net link n h
    simp [process_link, h]

theorem C7_dropbox_and_prefilter_witness :
    is_pdf_url (modify_dropbox_link (("https://example.com/page.html").data)) = false
    ∧ process_link (download_pdf (fun _ => Except.error Err.netError))
        (("https://example.com/page.html").data) 4 = (false, []) :=
  ⟨by decide,
   C7_dropbox_and_prefilter.2 (fun _ => Except.error Err.netError) _ 4 (by decide)⟩

/-- C3 as stated is false: with the hosted (openai) backend the
context-window step ignores the anchor entirely. On the text
"ab education xy", whose first anchor occurrence starts at index 3,
the openai branch returns the whole text, not the window beginning at
the anchor. -/
theorem C3_counterexample :
    findEducation (("ab education xy").data) = some 3
    ∧ extract_education_context (("ab education xy").data) "openai" 60
      ≠ anchorWindowOllama (("ab education xy").data) 3 := by
  constructor
  · decide
  · decide

/-- C3 amended: only when the local (ollama) backend is selected does
the context-window step return the window that begins at the first
case-insensitive occurrence of the anchor "education" and extends 360
characters (window_size 60 x 6 characters per word) past the end of
the match, truncated at the end of the text. -/
theorem C3_ollama_window (t : List Char) (i : Nat)
    (h : findEducation t = some i) :
    extract_education_context t "ollama" 60 = anchorWindowOllama t i := by
  simp [extract_education_context, anchorWindowOllama, h]

theorem C3_ollama_window_witness :
    findEducation (("education x").data) = some 0
    ∧ extract_education_context (("education x").data) "ollama" 60
      = anchorWindowOllama (("education x").data) 0 :=
  ⟨by decide, C3_ollama_window _ 0 (by decide)⟩

/-- C4: on a text with no case-insensitive occurrence of the anchor
"education", the context-window step succeeds and returns a fixed-size
prefix of the text, for every backend choice: the first 1080
characters under the ollama backend and the first 7200 characters in
the else branch taken for openai. -/
theorem C4_no_anchor_prefix (t : List Char) (c : String)
    (h : findEducation t = none) :
    extract_education_context t c 60
      = t.take (if c = "ollama" then 1080 else 7200) := by
  by_cases hc : c = "ollama" <;> simp [extract_education_context, hc, h]

theorem C4_no_anchor_prefix_witness :
    findEducation (("hello world").data) = none
    ∧ extract_education_context (("hello world").data) "openai" 60
      = (("hello world").data).take
          (if ("openai" : String) = "ollama" then 1080 else 7200) :=
  ⟨by decide, C4_no_anchor_prefix _ "openai" (by decide)⟩

/-- C10: for every input text and every backend-choice string the
context-window step is a total function whose value is a contiguous
slice of the input - it starts at index 0 or at the first anchor
occurrence, and its length never exceeds the input's length. -/
theorem C10_window_is_slice (t : List Char) (c : String) :
    ∃ i n, (i = 0 ∨ findEducation t = some i)
      ∧ extract_education_context t c 60 = (t.drop i).take n
      ∧ (extract_education_context t c 60).length ≤ t.length := by
  by_cases hc : c = "ollama"
  · subst hc
    cases h : findEducation t with
    | none =>
      refine ⟨0, 1080, Or.inl rfl, ?_, extract_education_context_len_le t _⟩
      simp [extract_education_context, h]
    | some i =>
      refine ⟨i, min t.length (i + 9 + 360) - i, Or.inr rfl, ?_,
        extract_education_context_len_le t _⟩
      simp [extract_education_context, h]
  · refine ⟨0, 7200, Or.inl rfl, ?_, extract_education_context_len_le t c⟩
    simp [extract_education_context, hc]

/-- C5: the hosted-API completion call makes at most two attempts,
every wait it performs is the fixed 30-second interval, any
non-rate-limit error on the first attempt propagates at once after
that single attempt with no wait, and a rate-limit error on the first
attempt leads to exactly one retry after a 30-second wait whose
result, whatever it is, is final. -/
theorem C5_retry_policy {α : Type} (call : Nat → Except ApiError α) :
    (completions_with_backoff call).2.1 ≤ 2
    ∧ (∀ w, w ∈ (completions_with_backoff call).2.2 → w = 30)
    ∧ (∀ e, isRateLimit e = false → call 0 = Except.error e →
        completions_with_backoff call = (Except.error e, 1, []))
    ∧ (call 0 = Except.error ApiError.rateLimit →
        completions_with_backoff call = (call 1, 2, [30])) := by
  have hrun : ∀ a, backoffRun isRateLimit 30 call a 0 = (call a, 1, []) := by
    intro a
    rfl
  constructor
  · cases h : call 0 with
    | ok v => simp [completions_with_backoff, backoffRun, h]
    | error e =>
      cases e <;> simp [completions_with_backoff, backoffRun, h, isRateLimit, hrun]
  constructor
  · intro w hw
    cases h : call 0 with
    | ok v => simp [completions_with_backoff, backoffRun, h] at hw
    | error e =>
      cases e <;>
        simp [completions_with_backoff, backoffRun, h, isRateLimit, hrun] at hw
      exact hw
  constructor
  · intro e he h
    simp [completions_with_backoff, backoffRun, h, he]
  · intro h
    simp [completions_with_backoff, backoffRun, h, isRateLimit, hrun]

theorem C5_retry_policy_witness :
    completions_with_backoff
        (fun _ => (Except.error ApiError.otherError : Except ApiError Nat))
      = (Except.error ApiError.otherError, 1, []) :=
  (C5_retry_policy (fun _ => (Except.error ApiError.otherError : Except ApiError Nat))).2.2.1
    ApiError.otherError rfl rfl

/-- helper: a total worker (one returning Option rather than raising)
never aborts the extraction executor loop, which then collects exactly
the successful rows in submission order. -/
theorem parserLoop_of_total (w : PdfEnv → Option CsvRow) (files : List PdfEnv) :
    parserLoop (fun f => Except.ok (w f)) files
      = Except.ok (files.filterMap w) := by
  induction files with
  | nil => rfl
  | cons f rest ih =>
    simp only [parserLoop, ih, Except.map, List.filterMap_cons]
    cases w f <;> simp [Option.toList]

/-- C1: in the downloader, the executor loop turns every submitted item
into exactly one terminal outcome tagged with that item's identity, for
every processor behaviour; an exception raised by the processor is
caught and becomes a Failure for that identity only. In the extraction
pipeline the loop itself does not catch, but the unit processor is
total - every collaborator error is caught at the unit boundary and
becomes None - so the loop never aborts and yields one terminal
decision per file; in particular a file whose PDF reader raises
contributes a Failure (None) and nothing else. -/
theorem C1_unit_isolation :
    (∀ (ε : Type) (proc : List Char → Nat → Except ε Bool)
        (items : List (List Char × Nat)),
        (downloaderLoop proc items).length = items.length
      ∧ ∀ (i : Nat) (l : List Char) (r : Nat), items[i]? = some (l, r) →
          (downloaderLoop proc items)[i]? = some (r, outcomeOfResult (proc l r))
          ∧ ∀ (e : ε), proc l r = Except.error e →
              (downloaderLoop proc items)[i]? = some (r, Outcome.failure))
    ∧ (∀ (api : String) (files : List PdfEnv),
        parserLoop (fun f => Except.ok (worker api f)) files
          = Except.ok (files.filterMap (worker api)))
    ∧ (∀ (api : String) (env : PdfEnv) (e : Err),
        env.reader = Except.error e → worker api env = none) := by
  refine ⟨?_, ?_, ?_⟩
  · intro ε proc items
    constructor
    · simp [downloaderLoop]
    · intro i l r h
      constructor
      · simp [downloaderLoop, List.getElem?_map, h]
      · intro e he
        simp [downloaderLoop, List.getElem?_map, h, he, outcomeOfResult]
  · intro api files
    exact parserLoop_of_total (worker api) files
  · intro api env e h
    simp [worker, process_pdf_file, extract_text_from_pdf, h]

theorem C1_unit_isolation_witness :
    (downloaderLoop (fun _ _ => (Except.error () : Except Unit Bool))
        [((("u").data), 7)])[0]? = some (7, Outcome.failure)
    ∧ worker "openai"
        { identity := 5, reader := Except.error Err.pdfError,
          ollamaPost := fun _ => Except.error Err.netError,
          openaiCall := fun _ _ => Except.error ApiError.otherError,
          parse := fun _ => none } = none :=
  ⟨((C1_unit_isolation.1 Unit (fun _ _ => Except.error ())
      [((("u").data), 7)]).2 0 (("u").data) 7 rfl).2 () rfl,
   C1_unit_isolation.2.2 "openai" _ Err.pdfError rfl⟩

/-- C2, code bug: a run of the extraction pipeline in which every unit
fails. The directory holds one PDF (identity 1) whose text extraction
raises; zero Success outcomes are collected, pd.DataFrame([]) has no
'File Name' column, and line 300 of src/cv_parser.py raises an
uncaught KeyError: the process exits non-zero and no CSV artifact is
written, where the claim (and the spec's best-effort guarantee)
require a CSV with exactly zero rows. -/
theorem C2_zero_success_crash :
    parserRun true
      [{ identity := 1, reader := Except.error Err.pdfError,
         ollamaPost := fun _ => Except.error Err.netError,
         openaiCall := fun _ _ => Except.error ApiError.otherError,
         parse := fun _ => none }] "openai" = (1, none) := rfl

/-- C6 as stated is false for the extraction pipeline: a non-existent
or non-directory input path makes main log an error and return plainly
(src/cv_parser.py lines 258-260), so the process exits with status 0,
not non-zero. -/
theorem C6_parser_exit_zero : parserRun false [] "openai" = (0, none) := rfl

/-- C6 amended: the downloader exits immediately with status 1 before
any unit work when the input table cannot be read or sliced, and ends
with status 0 whatever the per-unit outcomes; the extraction pipeline
aborts before any unit work on a bad input path but with exit status 0
(a logged error and a plain return), and per-unit failures leave its
exit status 0 as long as at least one unit succeeds (an all-failure
run crashes in aggregation, see the C2 result). -/
theorem C6_exit_codes :
    (∀ (ε : Type) (e : Err) (proc : List Char → Nat → Except ε Bool),
        downloaderRun (Except.error e) proc = (1, []))
    ∧ (∀ (ε : Type) (items : List (List Char × Nat))
          (proc : List Char → Nat → Except ε Bool),
        (downloaderRun (Except.ok items) proc).1 = 0)
    ∧ (∀ (files : List PdfEnv) (api : String),
        parserRun false files api = (0, none))
    ∧ (∀ (files : List PdfEnv) (api : String),
        (files.filterMap (worker api)).isEmpty = false →
        (parserRun true files api).1 = 0) := by
  refine ⟨fun ε e proc => rfl, fun ε items proc => rfl, fun files api => rfl, ?_⟩
  intro files api h
  have hf : files.isEmpty = false := by
    cases files with
    | nil => simp at h
    | cons f r => rfl
  simp [parserRun, hf, parserLoop_of_total, h]

theorem C6_exit_codes_witness :
    downloaderRun (Except.error Err.pdfError)
        (fun (_ : List Char) (_ : Nat) => (Except.ok true : Except Unit Bool))
      = (1, [])
    ∧ (parserRun true
        [{ identity := 3, reader := Except.ok [some (("x").data)],
           ollamaPost := fun _ => Except.ok (("y").data),
           openaiCall := fun _ _ => Except.ok (("j").data),
           parse := fun _ =>
             some (Json.obj [((("a").data), Json.str (("u").data))]) }]
        "openai").1 = 0 :=
  ⟨C6_exit_codes.1 Unit Err.pdfError _,
   C6_exit_codes.2.2.2 _ "openai" rfl⟩
